import Mathlib

/-!
Verification development for the Map-3D-NanoBanana repository.

The definitions below are a shallow embedding of the TypeScript sources:

* `src/source_code (11)/src/utils/environmentDetector.ts` —
  `generateImageWithNanoBanana` (config lookup, HTTP response handling,
  final image-URL construction) and `handleGenerate` (the three-step
  generation loop over the shared `GeneratedImages` state);
* `src/unnamed/part_000` — the auto-run app: `generateImage` (config lookup
  with the hardcoded `manualConfigs` table) and `regenerateAllImages`
  (timer-based scheduling of the three generation steps);
* `src/src/utils/networkMonitor.ts` — `processTemplateStrings` (the
  `${key}` template replacement), `generateProceduralMapImage` (seed and
  Lehmer PRNG) and `captureMapArea` (three-strategy degradation).

JavaScript strings-or-undefined are modelled as `Option String`
(`none` = `undefined`); JS truthiness of a string is `s ≠ ""`.
Fallible async functions are modelled as `Except`-style result types;
the settled outcome of a `fetch` is passed in explicitly as data.
-/

/-- JS value subset used for template variable bags
(`variables: Record<string, any>` in `processTemplateStrings`). -/
inductive JsVal where
  | vstr (s : String)
  | vnum (n : Int)
  | vbool (b : Bool)
  | vnull
  deriving DecidableEq, Repr

/-- JS truthiness for the modelled values. -/
def JsVal.truthy : JsVal → Bool
  | .vstr s => s ≠ ""
  | .vnum n => n ≠ 0
  | .vbool b => b
  | .vnull => false

/-- JS `String(v)` coercion for the modelled values. -/
def JsVal.jsToString : JsVal → String
  | .vstr s => s
  | .vnum n => toString n
  | .vbool b => if b then "true" else "false"
  | .vnull => "null"

/-- JS truthiness of a string-or-undefined value
(`undefined` and `""` are falsy). -/
def strTruthy : Option String → Bool
  | some s => s ≠ ""
  | none => false

/-- One element of the upstream response's `data` array:
`{ b64_json?: string, url?: string }`. -/
structure ImageData where
  b64_json : Option String
  url : Option String
  deriving DecidableEq, Repr

/-- Parsed upstream error body `{ error: { message, code } }`
(non-2xx responses). -/
structure ApiErrorBody where
  message : Option String
  code : Option Int
  deriving DecidableEq, Repr

/-- The settled outcome of the `fetch` to
`POST .../ai/images/generations`, as observed by the caller:
HTTP status line plus the parsed JSON body's `data` field (2xx path)
and the opportunistically parsed error body (non-2xx path). -/
structure ApiResponse where
  status : Nat
  statusText : String
  /-- `data` field of the parsed 2xx JSON body; `none` = absent. -/
  data : Option (List ImageData)
  /-- best-effort parse of a non-2xx body; `none` = parse failed (`{}`). -/
  errorBody : Option ApiErrorBody
  deriving DecidableEq, Repr

/-- `response.ok`: status in the range 200–299. -/
def ApiResponse.ok (r : ApiResponse) : Bool :=
  200 ≤ r.status && r.status < 300

/-- The three image types of `generateImageWithNanoBanana` /
`handleGenerate`: `'cad' | 'hologram' | 'lineArt'`. -/
inductive ImgType where
  | cad
  | hologram
  | lineArt
  deriving DecidableEq, Repr

/-- The string name of an image type (the TS union's literal). -/
def ImgType.name : ImgType → String
  | .cad => "cad"
  | .hologram => "hologram"
  | .lineArt => "lineArt"

/-- Variable bag handed to a prompt template. -/
structure TemplateVars where
  locationContext : String
  buildingType : String
  address : String
  scale : String
  dimensions : String
  deriving Repr

/-- A resolved `GenerationConfig` (an `ai_config` scene). -/
structure GenerationConfig where
  model : String
  response_format : String
  size : String
  /-- `prompt_template`; `none` models a config without a template. -/
  prompt_template : Option (TemplateVars → String)

/-- The injected configuration `globalThis.ywConfig.ai_config`,
as a partial map from scene keys to configs. -/
def AiConfig : Type := String → Option GenerationConfig

/-- Config lookup of `generateImageWithNanoBanana`
(environmentDetector.ts line 309): primary key `${imageType}_generator`,
then the legacy alias key `${imageType === 'cad' ? 'isometric' :
imageType}_generator` — an alias distinct from the primary key for the
`cad` type only. -/
def lookupConfigED (cfg : AiConfig) (t : ImgType) : Option GenerationConfig :=
  match cfg (t.name ++ "_generator") with
  | some c => some c
  | none =>
      cfg ((if t = ImgType.cad then "isometric" else t.name) ++ "_generator")

/-- Prompt rendering of `generateImageWithNanoBanana`: use
`config.prompt_template({ locationContext })` when present, else the
literal fallback string. -/
def renderPromptED (config : GenerationConfig) (t : ImgType)
    (locationContext : String) : String :=
  match config.prompt_template with
  | some f => f ⟨locationContext, "", "", "", ""⟩
  | none => "Generate " ++ t.name ++ " image for: " ++ locationContext

/-- `finalImageUrl` construction (environmentDetector.ts):
`imageData.b64_json ? \x60data:image/png;base64,...\x60 : imageData.url`.
JS truthiness: an empty `b64_json` string falls through to `url`;
the result may be `undefined` (`none`) when both are absent. -/
def finalImageUrl (d : ImageData) : Option String :=
  match d.b64_json with
  | some s => if s ≠ "" then some ("data:image/png;base64," ++ s) else d.url
  | none => d.url

/-- Result of one `generateImageWithNanoBanana` call: a returned value
(`ok`, possibly `undefined`) or a thrown error message. -/
inductive GenResult where
  | ok (img : Option String)
  | error (msg : String)
  deriving DecidableEq, Repr

/-- `generateImageWithNanoBanana` (environmentDetector.ts lines 297–427),
given the injected config and the settled response of its single fetch.

Control flow of the source: config lookup failure throws before the
`try` block (not re-wrapped); inside `try`, a non-ok response throws
"Authentication failed" on 401 (the parsed error body is only logged)
or "request failed" otherwise; on ok, a present non-empty `data` array
yields `finalImageUrl data[0]` and anything else throws "Invalid
response format". Before returning, the success log (line 404) reads
`finalImageUrl.length`, so when `finalImageUrl` is `undefined` (falsy
`b64_json` and absent `url`) the call throws
`TypeError: Cannot read properties of undefined (reading 'length')`
instead of returning; the `catch` re-wraps every thrown message with
"API Error - Image generation failed: ". -/
def generateImageWithNanoBanana (cfg : AiConfig) (t : ImgType)
    (locationContext : String) (resp : ApiResponse) : GenResult :=
  match lookupConfigED cfg t with
  | none =>
      GenResult.error
        ("API Error - " ++ t.name ++ " generator configuration not found")
  | some config =>
      let _prompt := renderPromptED config t locationContext
      let wrap := fun (m : String) =>
        GenResult.error ("API Error - Image generation failed: " ++ m)
      if resp.ok then
        match resp.data with
        | some (d :: _) =>
            match finalImageUrl d with
            | some img => GenResult.ok (some img)
            | none =>
                wrap "Cannot read properties of undefined (reading 'length')"
        | _ => wrap "API Error - Invalid response format - no image data received"
      else
        if resp.status = 401 then
          wrap ("API Error - Authentication failed: " ++ toString resp.status ++
            ". YouWare MCP AI SDK tool may not be properly enabled.")
        else
          wrap ("API Error - Image generation request failed: " ++
            toString resp.status ++ " " ++ resp.statusText)

/-- The shared `GeneratedImages` UI state:
`{ cad, hologram, lineArt }`, each `string | null`. -/
structure GeneratedImages where
  cad : Option String
  hologram : Option String
  lineArt : Option String
  deriving DecidableEq, Repr

/-- Field selector for `GeneratedImages` by image type. -/
def GeneratedImages.get (g : GeneratedImages) : ImgType → Option String
  | .cad => g.cad
  | .hologram => g.hologram
  | .lineArt => g.lineArt

/-- The functional state update
`setGeneratedImages(prev => ({ ...prev, [step.key]: v }))`:
spread of the previous state with one computed key overwritten. -/
def GeneratedImages.set (g : GeneratedImages) :
    ImgType → Option String → GeneratedImages
  | .cad, v => { g with cad := v }
  | .hologram, v => { g with hologram := v }
  | .lineArt, v => { g with lineArt := v }

/-- The per-step body of `handleGenerate`'s loop: on success store the
returned image for that step's key, on a caught error store `null` for
that step's key (and continue). -/
def stepUpdate (g : GeneratedImages) (t : ImgType) (r : GenResult) :
    GeneratedImages :=
  match r with
  | .ok img => g.set t img
  | .error _ => g.set t none

/-- The fixed step order of `handleGenerate`:
cad (isometric), hologram, lineArt. -/
def handleGenerateSteps : List ImgType :=
  [ImgType.cad, ImgType.hologram, ImgType.lineArt]

/-- The three-step loop of `handleGenerate` (environmentDetector.ts
lines 450–478), with each step's settled outcome given as data:
every step runs (a failure is caught per step, never aborts the loop)
and each updates only its own key. -/
def handleGenerateLoop (results : ImgType → GenResult)
    (init : GeneratedImages) : GeneratedImages :=
  handleGenerateSteps.foldl (fun g t => stepUpdate g t (results t)) init

/-- The three image types of the auto-run app (`src/unnamed/part_000`):
`'isometric' | 'hologram' | 'line_drawing'`. -/
inductive AppImgType where
  | isometric
  | hologram
  | line_drawing
  deriving DecidableEq, Repr

/-- The string name of an app image type. -/
def AppImgType.name : AppImgType → String
  | .isometric => "isometric"
  | .hologram => "hologram"
  | .line_drawing => "line_drawing"

/-- The `isometric_generator` entry of the hardcoded `manualConfigs`
table in `generateImage` (part_000). -/
def manualIsometricConfig : GenerationConfig where
  model := "nano-banana"
  response_format := "b64_json"
  size := "1024x1024"
  prompt_template := some fun v =>
    "Create a precise 3D isometric architectural drawing of " ++
    v.buildingType ++
    " from a 45° angle. Style: Minecraft HD-2D aesthetic. Include accurate dimensional measurements in millimeters (e.g., 18000 mm or 18.00 m). Add dimension lines like architectural CAD drawings. Show building width, height, road width based on " ++
    v.scale ++
    " from Google Maps. Add \"ROOF ANGLE 45°\" marking. Include north direction indicator in bottom right. No logos or imagery marks. Building only, focus on " ++
    v.address ++ ". Dimensions: " ++ v.dimensions

/-- The `hologram_generator` entry of `manualConfigs` (part_000). -/
def manualHologramConfig : GenerationConfig where
  model := "nano-banana"
  response_format := "b64_json"
  size := "1024x1024"
  prompt_template := some fun v =>
    "Create a futuristic holographic projection of " ++
    v.buildingType ++
    " from a 45° angle. Show translucent, glowing architectural structure with blue-cyan hologram effect. Include precise dimensional measurements in millimeters visible as floating holographic text (e.g., 18000 mm, 18.00 m). Add dimension lines in glowing cyan. Show building measurements based on " ++
    v.scale ++
    ". Add \"ROOF ANGLE 45°\" holographic text. Include north indicator. No logos. Focus on " ++
    v.address ++ ". Dimensions: " ++ v.dimensions

/-- The `line_drawing_generator` entry of `manualConfigs` (part_000). -/
def manualLineDrawingConfig : GenerationConfig where
  model := "nano-banana"
  response_format := "b64_json"
  size := "1024x1024"
  prompt_template := some fun v =>
    "Create a precise black and white line drawing of " ++
    v.buildingType ++
    " from a 45° angle. Use ONLY black and white colors - no other colors allowed. Thick bold lines with strong shadows and hatching for 3D depth. Include accurate dimensional measurements in millimeters (e.g., 18000 mm or 18.00 m). Add architectural dimension lines. Show building measurements based on " ++
    v.scale ++
    ". Add \"ROOF ANGLE 45°\" text. Include north indicator in bottom right. No logos. Building focus on " ++
    v.address ++ ". Dimensions: " ++ v.dimensions

/-- The hardcoded `manualConfigs` object of `generateImage` (part_000),
keyed by `${type}_generator`. -/
def manualConfigs : String → Option GenerationConfig
  | "isometric_generator" => some manualIsometricConfig
  | "hologram_generator" => some manualHologramConfig
  | "line_drawing_generator" => some manualLineDrawingConfig
  | _ => none

/-- Config lookup of the auto-run app's `generateImage` (part_000 lines
116–162): primary key `${type}_generator` in the injected config, then
the hardcoded `manualConfigs` table under the same key; no alias step.
The trailing `if (!config) throw` of the source corresponds to the
`none` case of the result. -/
def lookupConfigApp (cfg : AiConfig) (t : AppImgType) :
    Option GenerationConfig :=
  match cfg (t.name ++ "_generator") with
  | some c => some c
  | none => manualConfigs (t.name ++ "_generator")

/-- Prompt rendering of `generateImage` (part_000): the template is
called with the fixed Tokyo-Station variable bag. -/
def renderPromptApp (config : GenerationConfig) : Option String :=
  config.prompt_template.map fun f =>
    f ⟨"", "historical railway station building",
       "日本、〒100-0005 東京都千代田区丸の内１丁目",
       "Google Maps satellite view scale",
       "Building location: 35.6812362, 139.7671248"⟩

/-- The timer schedule of `regenerateAllImages` (part_000 lines 96–101):
`generateImage('isometric')` immediately, `setTimeout(..., 1000)` for
hologram, `setTimeout(..., 2000)` for line drawing — start offsets in
milliseconds, fixed at call time. -/
def regenerateAllImagesSchedule : List (AppImgType × Nat) :=
  [(AppImgType.isometric, 0), (AppImgType.hologram, 1000),
   (AppImgType.line_drawing, 2000)]

/-- Start time (ms offset) of one step under `regenerateAllImages`;
a constant of the source, independent of any request's duration. -/
def startTimeOf : AppImgType → Nat
  | .isometric => 0
  | .hologram => 1000
  | .line_drawing => 2000

/-- Finish time of one step's network call when its request takes
`dur t` milliseconds: the step's fixed start offset plus its duration. -/
def finishTimeOf (dur : AppImgType → Nat) (t : AppImgType) : Nat :=
  startTimeOf t + dur t

/-- A `Location` (lat/lng as exact rationals, modelling the JS numbers). -/
structure Location where
  lat : ℚ
  lng : ℚ
  address : String
  deriving DecidableEq, Repr

/-- The coordinate-derived seed of `generateProceduralMapImage`
(networkMonitor.ts line 524):
`Math.abs(Math.floor(lat * 1000000) + Math.floor(lng * 1000000))`. -/
def proceduralSeed (lat lng : ℚ) : ℕ :=
  (Int.floor (lat * 1000000) + Int.floor (lng * 1000000)).natAbs

/-- One step of the Lehmer-style PRNG of `generateProceduralMapImage`:
`prngState = (prngState * 16807) % 2147483647; return prngState / 2147483647`.
Returns the drawn value (a rational in `[0,1)`) and the next state. -/
def prngNext (st : ℕ) : ℚ × ℕ :=
  let st2 := st * 16807 % 2147483647
  ((st2 : ℚ) / 2147483647, st2)

/-- The `n`-th PRNG state reached from `seed` (state after `n` updates). -/
def prngState (seed : ℕ) : ℕ → ℕ
  | 0 => seed
  | n + 1 => prngState seed n * 16807 % 2147483647

/-- The `n`-th value drawn by `prng()` when the generator starts from
`seed` (0-indexed: draw `n` uses the state after `n + 1` updates). -/
def prngDraw (seed : ℕ) (n : ℕ) : ℚ :=
  (prngState seed (n + 1) : ℚ) / 2147483647

/-- JS `x.toFixed(4)` modelled over exact rationals: round to four
decimal places and print with exactly four fractional digits. -/
def toFixed4 (x : ℚ) : String :=
  let n : ℤ := Int.floor (x * 10000 + 1/2)
  let sign := if n < 0 then "-" else ""
  sign ++ toString (n.natAbs / 10000) ++ "." ++
    (toString (10000 + n.natAbs % 10000)).drop 1

/-- Drawing commands issued by the canvas-based map generators.
Canvas rendering is modelled at the level of the command list; colours
fixed in the source (`'#696969'` roads, `'#228B22'` trees, `'#4169E1'`
water, `'#FF4500'` marker, `'#4A90E2'` background) are implicit in the
constructor. -/
inductive CanvasOp where
  /-- radial base-terrain gradient fill over the 640×640 canvas -/
  | terrainGradient
  /-- grey stroked path from `(x, y)` to `(x + dx, y + dy)`,
  line width `size / 8` -/
  | road (x y size dx dy : ℚ)
  /-- `hsl(hue, 50%, light%)` rectangle centred at `(x, y)` -/
  | building (x y size : ℚ) (hue light : ℤ)
  /-- green disc of radius `size / 2` at `(x, y)` -/
  | tree (x y size : ℚ)
  /-- blue disc of radius `size / 2` at `(x, y)` -/
  | water (x y size : ℚ)
  /-- orange centre marker disc at `(320, 320)` -/
  | centerMarker
  /-- orange 100×100 indicator frame at `(270, 270)` -/
  | indicatorFrame
  /-- solid `'#4A90E2'` background fill (final-fallback canvas) -/
  | bgFill
  /-- `fillText(s, x, y)` -/
  | text (s : String) (x y : ℚ)
  deriving DecidableEq, Repr

/-- One iteration of the feature loop of `generateProceduralMapImage`
(networkMonitor.ts lines 541–570): draws `x`, `y`, `size`,
`featureType`, then branches — roads (`featureType < 0.3`, two further
draws for the line offsets), buildings (`< 0.6`, two further draws for
the HSL colour), natural features (trees `< 0.8`, else water). -/
def proceduralFeature (st : ℕ) : CanvasOp × ℕ :=
  let p1 := prngNext st
  let p2 := prngNext p1.2
  let p3 := prngNext p2.2
  let p4 := prngNext p3.2
  let x := p1.1 * 640
  let y := p2.1 * 640
  let size := p3.1 * 40 + 10
  let ft := p4.1
  if ft < 3/10 then
    let p5 := prngNext p4.2
    let p6 := prngNext p5.2
    (CanvasOp.road x y size ((p5.1 - 1/2) * 200) ((p6.1 - 1/2) * 200), p6.2)
  else if ft < 6/10 then
    let p5 := prngNext p4.2
    let p6 := prngNext p5.2
    (CanvasOp.building x y size (Int.floor (p5.1 * 60) + 200)
      (Int.floor (p6.1 * 30) + 40), p6.2)
  else if ft < 8/10 then
    (CanvasOp.tree x y size, p4.2)
  else
    (CanvasOp.water x y size, p4.2)

/-- Runs `n` iterations of the feature loop, threading the PRNG state. -/
def proceduralFeatures : ℕ → ℕ → List CanvasOp × ℕ
  | 0, st => ([], st)
  | n + 1, st =>
      let f := proceduralFeature st
      let rest := proceduralFeatures n f.2
      (f.1 :: rest.1, rest.2)

/-- The full command list of `generateProceduralMapImage` for a
location: base gradient, `Math.floor(prng() * 8) + 5` features, centre
marker, indicator frame, coordinate text and the first 40 characters of
the address. -/
def proceduralOps (loc : Location) : List CanvasOp :=
  let seed := proceduralSeed loc.lat loc.lng
  let p1 := prngNext seed
  let features := (Int.floor (p1.1 * 8)).toNat + 5
  let fs := proceduralFeatures features p1.2
  CanvasOp.terrainGradient :: fs.1 ++
    [CanvasOp.centerMarker, CanvasOp.indicatorFrame,
     CanvasOp.text (toFixed4 loc.lat ++ ", " ++ toFixed4 loc.lng) 10 25,
     CanvasOp.text (loc.address.take 40) 10 615]

/-- `canvas.toDataURL('image/png')`, modelled as a deterministic
injective encoding of the issued drawing commands wrapped as a PNG
data URI (pixel-level PNG encoding is outside the embedding). -/
def canvasToDataURL (ops : List CanvasOp) : String :=
  "data:image/png;base64," ++ reprStr ops

/-- `generateProceduralMapImage` (networkMonitor.ts lines 513–593):
the procedural data-URI image for a location. -/
def generateProceduralMapImage (loc : Location) : String :=
  canvasToDataURL (proceduralOps loc)

/-- Splits a character list into chunks of at most 30 characters:
the JS `address.match(/.{1,30}/g)` of the final-fallback canvas. -/
def chunk30 : List Char → List (List Char)
  | [] => []
  | c :: cs => (c :: cs.take 29) :: chunk30 (cs.drop 29)
termination_by l => l.length
decreasing_by
  simp only [List.length_cons, List.length_drop]
  omega

/-- `location.address.match(/.{1,30}/g) || [location.address]`:
the address split into ≤30-character lines, with the whole address as
a single line when the regex yields no match (empty address). -/
def addressLines (address : String) : List String :=
  if address = "" then [address]
  else (chunk30 address.data).map (fun l => String.mk l)

/-- The `addressLines.forEach((line, index) => fillText(line, 320,
360 + index * 20))` loop of the final-fallback canvas
(networkMonitor.ts lines 661–664), started at index `i`. -/
def addressTextOps (i : ℕ) : List String → List CanvasOp
  | [] => []
  | line :: rest =>
      CanvasOp.text line 320 (360 + 20 * (i : ℚ)) :: addressTextOps (i + 1) rest

/-- Command list of the final-fallback canvas of `captureMapArea`:
blue background, "Map Capture" heading, coordinate text, address
lines. -/
def finalFallbackOps (loc : Location) : List CanvasOp :=
  [CanvasOp.bgFill,
   CanvasOp.text "Map Capture" 320 280,
   CanvasOp.text (toFixed4 loc.lat ++ ", " ++ toFixed4 loc.lng) 320 320] ++
    addressTextOps 0 (addressLines loc.address)

/-- The final-fallback data-URI image of `captureMapArea`. -/
def finalFallbackImage (loc : Location) : String :=
  canvasToDataURL (finalFallbackOps loc)

/-- Settled outcome of the Google Static Maps request of
`captureMapArea`, including the subsequent `FileReader` step:
`ok b` means the fetch was ok and the blob's bytes base64-encode to
`b` (the reader then yields the `image/png` data URI for them);
`httpError`/`reject` are a non-ok status and a rejected fetch. -/
inductive FetchOutcome where
  | ok (base64Body : String)
  | httpError (status : Nat)
  | reject
  deriving DecidableEq, Repr

/-- Whether the static-map strategy failed (non-ok status throws
`API returned ...`; a rejected fetch throws directly). -/
def FetchOutcome.failed : FetchOutcome → Bool
  | .ok _ => false
  | _ => true

/-- `captureMapArea` (networkMonitor.ts lines 595–670), with the
static-map outcome and whether procedural canvas generation succeeds
(`proceduralOk = false` models `generateProceduralMapImage` throwing,
e.g. no 2D context) given as data. Strategy 1: static map; on its
failure, strategy 2: procedural image (inner catch); if that throws
too, strategy 3: the plain final-fallback canvas (outer catch).
Total — every path returns a string. -/
def captureMapArea (f : FetchOutcome) (proceduralOk : Bool)
    (loc : Location) : String :=
  match f with
  | .ok b => "data:image/png;base64," ++ b
  | _ =>
      if proceduralOk then generateProceduralMapImage loc
      else finalFallbackImage loc

/-- JS regex `\w`: ASCII letter, digit or underscore. -/
def wordChar (c : Char) : Bool :=
  c.isAlphanum || c = '_'

/-- Replacement value for one matched `${key}` placeholder:
`variables[key] || match` — the coerced variable value when the lookup
succeeds and is truthy, otherwise the matched text itself. -/
def substResult (vars : String → Option JsVal) (key : List Char) :
    List Char :=
  match vars (String.mk key) with
  | some v =>
      if v.truthy then v.jsToString.data
      else '$' :: '{' :: (key ++ ['}'])
  | none => '$' :: '{' :: (key ++ ['}'])

/-- `obj.replace(/\$\x7b(\w+)\x7d/g, (match, key) => variables[key] || match)`:
left-to-right scan replacing every `${key}` occurrence (`key` a
non-empty run of word characters immediately followed by the closing
brace) by `substResult`; all other characters are copied through. -/
def replaceVars (vars : String → Option JsVal) : List Char → List Char
  | [] => []
  | c :: cs =>
      if c = '$' ∧ cs.head? = some '{' then
        let w := cs.tail.takeWhile wordChar
        let rest := cs.tail.dropWhile wordChar
        if w ≠ [] ∧ rest.head? = some '}' then
          substResult vars w ++ replaceVars vars rest.tail
        else c :: replaceVars vars cs
      else c :: replaceVars vars cs
termination_by l => l.length
decreasing_by
  · simp only [List.length_cons]
    have h1 : (List.dropWhile wordChar cs.tail).length ≤ cs.tail.length :=
      (List.dropWhile_suffix wordChar).sublist.length_le
    have h2 : cs.tail.length ≤ cs.length := by
      cases cs <;> simp
    have h3 : (List.dropWhile wordChar cs.tail).tail.length ≤
        (List.dropWhile wordChar cs.tail).length := by
      cases List.dropWhile wordChar cs.tail <;> simp
    omega
  · simp
  · simp

/-- The template function produced by `processTemplateStrings` for a
string containing `${` (networkMonitor.ts lines 397–416), applied to a
variable bag. -/
def applyTemplate (vars : String → Option JsVal) (s : String) : String :=
  String.mk (replaceVars vars s.data)

/-- Whether `sub` occurs as a contiguous substring of `l`
(JS `message.includes(sub)`). -/
def listHasSubstr (sub : List Char) : List Char → Bool
  | [] => sub.isEmpty
  | c :: cs => sub.isPrefixOf (c :: cs) || listHasSubstr sub cs

/-- JS `s.includes(sub)` on strings. -/
def containsSubstr (s sub : String) : Bool :=
  listHasSubstr sub.data s.data

/-- The value `handleGenerate` stores for a step given its outcome:
the returned image on success (possibly `undefined`), `null` on a
caught failure. -/
def storedValue : GenResult → Option String
  | .ok img => img
  | .error _ => none

/-- A sample generator config (used to instantiate theorems). -/
def sampleConfig : GenerationConfig where
  model := "nano-banana"
  response_format := "b64_json"
  size := "1024x1024"
  prompt_template := some fun v => "Generate from: " ++ v.locationContext

/-- A sample injected `ai_config` that provides the primary
`cad_generator` scene only. -/
def sampleAiConfig : AiConfig :=
  fun k => if k = "cad_generator" then some sampleConfig else none

/-- An empty injected `ai_config` (no scenes at all). -/
def emptyAiConfig : AiConfig := fun _ => none

/-- A sample location context string. -/
def sampleCtx : String :=
  "Location: Tokyo Station, Coordinates: 35.6812, 139.7671."

/-- The initial `GeneratedImages` state with all slots `null`. -/
def emptyImages : GeneratedImages := ⟨none, none, none⟩

/-- C6: the procedural map fallback is deterministic per coordinate —
two invocations with the same lat/lng derive the same seed
`abs(floor(lat*1000000) + floor(lng*1000000))` and the Lehmer-style
generator (`state := state*16807 mod 2147483647`) then produces an
identical sequence of pseudo-random draws. -/
theorem procedural_seed_and_draws_deterministic (l1 l2 : Location)
    (hlat : l1.lat = l2.lat) (hlng : l1.lng = l2.lng) :
    proceduralSeed l1.lat l1.lng = proceduralSeed l2.lat l2.lng ∧
    ∀ n, prngDraw (proceduralSeed l1.lat l1.lng) n =
      prngDraw (proceduralSeed l2.lat l2.lng) n := by
  rw [hlat, hlng]
  exact ⟨rfl, fun _ => rfl⟩

/-- Witness for C6 at two concrete runs over the same coordinate. -/
theorem procedural_seed_and_draws_deterministic_witness :
    proceduralSeed (Location.mk 35.6812 139.7671 "run one").lat
        (Location.mk 35.6812 139.7671 "run one").lng =
      proceduralSeed (Location.mk 35.6812 139.7671 "run two").lat
        (Location.mk 35.6812 139.7671 "run two").lng ∧
    ∀ n, prngDraw (proceduralSeed (Location.mk 35.6812 139.7671 "run one").lat
        (Location.mk 35.6812 139.7671 "run one").lng) n =
      prngDraw (proceduralSeed (Location.mk 35.6812 139.7671 "run two").lat
        (Location.mk 35.6812 139.7671 "run two").lng) n :=
  procedural_seed_and_draws_deterministic
    (Location.mk 35.6812 139.7671 "run one")
    (Location.mk 35.6812 139.7671 "run two") rfl rfl

/-- C9: the coordinate-to-seed function is symmetric in lat and lng —
swapping the two coordinates yields the identical seed, hence identical
draw sequences for two distinct locations, so the coordinate-to-image
mapping is not injective. -/
theorem procedural_seed_swap_symmetric :
    (∀ loc : Location,
      proceduralSeed loc.lat loc.lng = proceduralSeed loc.lng loc.lat) ∧
    ∃ l1 l2 : Location, l1 ≠ l2 ∧
      proceduralSeed l1.lat l1.lng = proceduralSeed l2.lat l2.lng ∧
      ∀ n, prngDraw (proceduralSeed l1.lat l1.lng) n =
        prngDraw (proceduralSeed l2.lat l2.lng) n := by
  have hsym : ∀ a b : ℚ, proceduralSeed a b = proceduralSeed b a := by
    intro a b
    unfold proceduralSeed
    rw [Int.add_comm]
  refine ⟨fun loc => hsym loc.lat loc.lng,
    ⟨1, 2, "Tokyo"⟩, ⟨2, 1, "Tokyo"⟩, ?_, hsym 1 2, ?_⟩
  · intro h
    have : (1 : ℚ) = 2 := congrArg Location.lat h
    norm_num at this
  · intro n
    rw [hsym 1 2]

/-- C8: `regenerateAllImages` starts the three generation steps at the
fixed wall-clock offsets 0 ms, 1000 ms and 2000 ms (`setTimeout`),
independent of request durations, so a later step can begin while the
previous request is still in flight. -/
theorem regenerate_uses_fixed_timer_offsets (dur : AppImgType → ℕ)
    (h : 1000 < dur AppImgType.isometric) :
    (∀ t : AppImgType, (t, startTimeOf t) ∈ regenerateAllImagesSchedule) ∧
    startTimeOf AppImgType.isometric < startTimeOf AppImgType.hologram ∧
    startTimeOf AppImgType.hologram < startTimeOf AppImgType.line_drawing ∧
    startTimeOf AppImgType.hologram < finishTimeOf dur AppImgType.isometric := by
  refine ⟨?_, by decide, by decide, ?_⟩
  · intro t
    cases t <;> simp [regenerateAllImagesSchedule, startTimeOf]
  · show startTimeOf AppImgType.hologram <
      startTimeOf AppImgType.isometric + dur AppImgType.isometric
    simp only [startTimeOf]
    omega

/-- Witness for C8 with a concrete 1500 ms isometric request. -/
theorem regenerate_uses_fixed_timer_offsets_witness :
    (∀ t : AppImgType,
      (t, startTimeOf t) ∈ regenerateAllImagesSchedule) ∧
    startTimeOf AppImgType.isometric < startTimeOf AppImgType.hologram ∧
    startTimeOf AppImgType.hologram < startTimeOf AppImgType.line_drawing ∧
    startTimeOf AppImgType.hologram <
      finishTimeOf (fun _ => 1500) AppImgType.isometric :=
  regenerate_uses_fixed_timer_offsets (fun _ => 1500) (by decide)

/-- Every address line appears as a `fillText` command (at `x = 320`)
in the final-fallback text loop. -/
theorem mem_addressTextOps (line : String) :
    ∀ (lines : List String) (i : ℕ), line ∈ lines →
      ∃ y : ℚ, CanvasOp.text line 320 y ∈ addressTextOps i lines := by
  intro lines
  induction lines with
  | nil => intro i h; cases h
  | cons hd tl ih =>
      intro i h
      rcases List.mem_cons.mp h with h1 | h2
      · exact ⟨360 + 20 * (i : ℚ), by rw [h1]; exact List.mem_cons_self _ _⟩
      · obtain ⟨y, hy⟩ := ih (i + 1) h2
        exact ⟨y, List.mem_cons_of_mem _ hy⟩

/-- C7: `captureMapArea` is total and degrades through three
strategies — it always produces a `data:image/png;base64,` URI; a
successful static-map fetch yields that image, a failed one yields the
deterministic procedural image, and if procedural generation also
fails it yields the plain fallback canvas, which carries the
coordinate text and every address line as drawn text. -/
theorem captureMapArea_total_three_strategy (f : FetchOutcome) (pOk : Bool)
    (loc : Location) :
    (∃ rest, captureMapArea f pOk loc = "data:image/png;base64," ++ rest) ∧
    (∀ b, f = FetchOutcome.ok b →
      captureMapArea f pOk loc = "data:image/png;base64," ++ b) ∧
    (f.failed = true → pOk = true →
      captureMapArea f pOk loc = generateProceduralMapImage loc) ∧
    (f.failed = true → pOk = false →
      captureMapArea f pOk loc = finalFallbackImage loc) ∧
    CanvasOp.text (toFixed4 loc.lat ++ ", " ++ toFixed4 loc.lng) 320 320
      ∈ finalFallbackOps loc ∧
    ∀ line ∈ addressLines loc.address,
      ∃ y : ℚ, CanvasOp.text line 320 y ∈ finalFallbackOps loc := by
  refine ⟨?_, ?_, ?_, ?_, ?_, ?_⟩
  · cases f with
    | ok b => exact ⟨b, rfl⟩
    | httpError s =>
        cases pOk
        · exact ⟨reprStr (finalFallbackOps loc), rfl⟩
        · exact ⟨reprStr (proceduralOps loc), rfl⟩
    | reject =>
        cases pOk
        · exact ⟨reprStr (finalFallbackOps loc), rfl⟩
        · exact ⟨reprStr (proceduralOps loc), rfl⟩
  · intro b hb
    rw [hb]
    rfl
  · intro hf hp
    cases f with
    | ok b => simp [FetchOutcome.failed] at hf
    | httpError s => rw [hp]; rfl
    | reject => rw [hp]; rfl
  · intro hf hp
    cases f with
    | ok b => simp [FetchOutcome.failed] at hf
    | httpError s => rw [hp]; rfl
    | reject => rw [hp]; rfl
  · simp [finalFallbackOps]
  · intro line hline
    obtain ⟨y, hy⟩ := mem_addressTextOps line (addressLines loc.address) 0 hline
    refine ⟨y, ?_⟩
    unfold finalFallbackOps
    exact List.mem_append_right _ hy

/-- Witness for C7: a failed static-map fetch (HTTP 403) with failing
procedural generation at a concrete location. -/
theorem captureMapArea_total_three_strategy_witness :
    (∃ rest, captureMapArea (FetchOutcome.httpError 403) false
        (Location.mk 1 2 "Somewhere") = "data:image/png;base64," ++ rest) ∧
    (∀ b, FetchOutcome.httpError 403 = FetchOutcome.ok b →
      captureMapArea (FetchOutcome.httpError 403) false
        (Location.mk 1 2 "Somewhere") = "data:image/png;base64," ++ b) ∧
    ((FetchOutcome.httpError 403).failed = true → false = true →
      captureMapArea (FetchOutcome.httpError 403) false
        (Location.mk 1 2 "Somewhere") =
        generateProceduralMapImage (Location.mk 1 2 "Somewhere")) ∧
    ((FetchOutcome.httpError 403).failed = true → false = false →
      captureMapArea (FetchOutcome.httpError 403) false
        (Location.mk 1 2 "Somewhere") =
        finalFallbackImage (Location.mk 1 2 "Somewhere")) ∧
    CanvasOp.text (toFixed4 (Location.mk 1 2 "Somewhere").lat ++ ", " ++
        toFixed4 (Location.mk 1 2 "Somewhere").lng) 320 320
      ∈ finalFallbackOps (Location.mk 1 2 "Somewhere") ∧
    ∀ line ∈ addressLines (Location.mk 1 2 "Somewhere").address,
      ∃ y : ℚ, CanvasOp.text line 320 y
        ∈ finalFallbackOps (Location.mk 1 2 "Somewhere") :=
  captureMapArea_total_three_strategy (FetchOutcome.httpError 403) false
    (Location.mk 1 2 "Somewhere")

/-- C2: in the three-step loop of `handleGenerate`, a failing step's
state update writes only that step's slot of `GeneratedImages`
(setting it to `null`), the other two slots retain their previous
values, and the loop still processes every step — each slot's final
value is determined solely by that step's own outcome. -/
theorem handleGenerate_step_failure_frame (g : GeneratedImages)
    (t u : ImgType) (e : String) (hne : u ≠ t) :
    (stepUpdate g t (GenResult.error e)).get t = none ∧
    (stepUpdate g t (GenResult.error e)).get u = g.get u ∧
    ∀ (results : ImgType → GenResult) (init : GeneratedImages),
      handleGenerateLoop results init =
        ⟨storedValue (results ImgType.cad),
         storedValue (results ImgType.hologram),
         storedValue (results ImgType.lineArt)⟩ := by
  refine ⟨?_, ?_, ?_⟩
  · cases t <;> rfl
  · cases t <;> cases u <;> first
      | rfl
      | exact absurd rfl hne
  · intro results init
    have h1 : ∀ (g : GeneratedImages) (t : ImgType) (r : GenResult),
        stepUpdate g t r = g.set t (storedValue r) := by
      intro g t r
      cases r <;> rfl
    show stepUpdate (stepUpdate (stepUpdate init ImgType.cad
        (results ImgType.cad)) ImgType.hologram (results ImgType.hologram))
        ImgType.lineArt (results ImgType.lineArt) = _
    rw [h1, h1, h1]
    rfl

/-- Witness for C2: the hologram step fails while cad and lineArt keep
their previous values. -/
theorem handleGenerate_step_failure_frame_witness :
    (stepUpdate ⟨some "a", some "b", some "c"⟩ ImgType.hologram
        (GenResult.error "boom")).get ImgType.hologram = none ∧
    (stepUpdate ⟨some "a", some "b", some "c"⟩ ImgType.hologram
        (GenResult.error "boom")).get ImgType.cad =
      (⟨some "a", some "b", some "c"⟩ : GeneratedImages).get ImgType.cad ∧
    ∀ (results : ImgType → GenResult) (init : GeneratedImages),
      handleGenerateLoop results init =
        ⟨storedValue (results ImgType.cad),
         storedValue (results ImgType.hologram),
         storedValue (results ImgType.lineArt)⟩ :=
  handleGenerate_step_failure_frame ⟨some "a", some "b", some "c"⟩
    ImgType.hologram ImgType.cad "boom" (by decide)

/-- A 2xx response whose single data element has `b64_json: ""`
(a JS-falsy string) and no `url`. -/
def respEmptyB64 : ApiResponse :=
  ⟨200, "OK", some [⟨some "", none⟩], none⟩

/-- The HTTP 401 response of the spec's failure scenario, with error
body `{"error":{"message":"Invalid credentials","code":40101}}`. -/
def resp401 : ApiResponse :=
  ⟨401, "Unauthorized", none, some ⟨some "Invalid credentials", some 40101⟩⟩

/-- The message `generateImageWithNanoBanana` surfaces on HTTP 401:
the catch-wrapped hardcoded authentication error, built without the
parsed error body. -/
def authFailureMsg : String :=
  "API Error - Image generation failed: API Error - Authentication failed: 401. YouWare MCP AI SDK tool may not be properly enabled."

/-- A 2xx response whose single data element has neither `b64_json`
nor `url`. -/
def respOkNoFields : ApiResponse :=
  ⟨200, "OK", some [⟨none, none⟩], none⟩

/-- The message the catch surfaces when the success log dereferences an
undefined `finalImageUrl` (the `finalImageUrl.length` read at
environmentDetector.ts line 404). -/
def typeErrorMsg : String :=
  "API Error - Image generation failed: " ++
    "Cannot read properties of undefined (reading 'length')"

/-- C1 counterexample: for the response body
`{ data: [{ b64_json: "" }] }` the call does not store
`"data:image/png;base64," ++ ""` — the empty base64 string is JS-falsy,
`finalImageUrl` falls through to the absent `url`, the success log's
`finalImageUrl.length` read throws a TypeError which the catch wraps,
and the per-step handler then stores `null` for the slot. -/
theorem generate_empty_b64_not_stored_as_data_uri :
    generateImageWithNanoBanana sampleAiConfig ImgType.cad sampleCtx
      respEmptyB64 = GenResult.error typeErrorMsg ∧
    (stepUpdate emptyImages ImgType.cad
        (generateImageWithNanoBanana sampleAiConfig ImgType.cad sampleCtx
          respEmptyB64)).get ImgType.cad = none ∧
    (none : Option String) ≠ some ("data:image/png;base64," ++ "") := by
  refine ⟨by decide, by decide, by decide⟩

/-- C1 (amended): for every generation call whose resolved config is
found and whose 2xx body is `{ data: [{ b64_json: s }] }` with `s`
non-empty, the call returns exactly `"data:image/png;base64," ++ s`
and that string is stored in the requested type's `GeneratedImages`
slot — the base64 form is preferred even when a `url` is also present;
when `s` is the empty string and no `url` is present, the success
log's `finalImageUrl.length` read throws, the catch wraps the
TypeError, and the slot is set to `null` instead. -/
theorem generate_stores_b64_data_uri (cfg : AiConfig) (t : ImgType)
    (ctx : String) (resp : ApiResponse) (s : String) (u : Option String)
    (g : GeneratedImages) (hcfg : (lookupConfigED cfg t).isSome = true)
    (hok : resp.ok = true) (hdata : resp.data = some [⟨some s, u⟩]) :
    (s ≠ "" →
      generateImageWithNanoBanana cfg t ctx resp =
        GenResult.ok (some ("data:image/png;base64," ++ s)) ∧
      (stepUpdate g t (generateImageWithNanoBanana cfg t ctx resp)).get t =
        some ("data:image/png;base64," ++ s)) ∧
    (s = "" → u = none →
      generateImageWithNanoBanana cfg t ctx resp =
        GenResult.error typeErrorMsg ∧
      (stepUpdate g t (generateImageWithNanoBanana cfg t ctx resp)).get t =
        none) := by
  obtain ⟨c, hc⟩ := Option.isSome_iff_exists.mp hcfg
  constructor
  · intro hs
    have hgen : generateImageWithNanoBanana cfg t ctx resp =
        GenResult.ok (some ("data:image/png;base64," ++ s)) := by
      unfold generateImageWithNanoBanana
      rw [hc]
      simp [hok, hdata, finalImageUrl, hs]
    refine ⟨hgen, ?_⟩
    rw [hgen]
    cases t <;> rfl
  · intro hs hu
    subst hs
    subst hu
    have hgen : generateImageWithNanoBanana cfg t ctx resp =
        GenResult.error typeErrorMsg := by
      unfold generateImageWithNanoBanana
      rw [hc]
      simp [hok, hdata, finalImageUrl, typeErrorMsg]
    refine ⟨hgen, ?_⟩
    rw [hgen]
    cases t <;> rfl

/-- Witness for C1 (amended) at a concrete response carrying both a
base64 payload and a hosted URL. -/
theorem generate_stores_b64_data_uri_witness :
    ("QkFTRTY0" ≠ "" →
      generateImageWithNanoBanana sampleAiConfig ImgType.cad sampleCtx
        ⟨200, "OK",
          some [⟨some "QkFTRTY0", some "https://img.example/x.png"⟩],
          none⟩ =
        GenResult.ok (some ("data:image/png;base64," ++ "QkFTRTY0")) ∧
      (stepUpdate emptyImages ImgType.cad
          (generateImageWithNanoBanana sampleAiConfig ImgType.cad sampleCtx
            ⟨200, "OK",
              some [⟨some "QkFTRTY0", some "https://img.example/x.png"⟩],
              none⟩)).get ImgType.cad =
        some ("data:image/png;base64," ++ "QkFTRTY0")) ∧
    ("QkFTRTY0" = "" → some "https://img.example/x.png" = none →
      generateImageWithNanoBanana sampleAiConfig ImgType.cad sampleCtx
        ⟨200, "OK",
          some [⟨some "QkFTRTY0", some "https://img.example/x.png"⟩],
          none⟩ =
        GenResult.error typeErrorMsg ∧
      (stepUpdate emptyImages ImgType.cad
          (generateImageWithNanoBanana sampleAiConfig ImgType.cad sampleCtx
            ⟨200, "OK",
              some [⟨some "QkFTRTY0", some "https://img.example/x.png"⟩],
              none⟩)).get ImgType.cad = none) :=
  generate_stores_b64_data_uri sampleAiConfig ImgType.cad sampleCtx
    ⟨200, "OK", some [⟨some "QkFTRTY0", some "https://img.example/x.png"⟩],
      none⟩
    "QkFTRTY0" (some "https://img.example/x.png") emptyImages
    (by decide) (by decide) rfl

/-- C3 counterexample: on HTTP 401 with body
`{"error":{"message":"Invalid credentials","code":40101}}` the call
throws the hardcoded authentication message — the parsed error body is
only logged, so the surfaced message does not contain
"Invalid credentials" (the `GeneratedImages` slot does end up `null`). -/
theorem auth_error_does_not_surface_body_message :
    generateImageWithNanoBanana sampleAiConfig ImgType.cad sampleCtx resp401 =
      GenResult.error authFailureMsg ∧
    containsSubstr authFailureMsg "Invalid credentials" = false ∧
    (stepUpdate emptyImages ImgType.cad
        (generateImageWithNanoBanana sampleAiConfig ImgType.cad sampleCtx
          resp401)).get ImgType.cad = none := by
  refine ⟨by decide, by decide, by decide⟩

/-- C3 (amended): on HTTP 401 — whatever the error body — the call
surfaces the hardcoded message "API Error - Image generation failed:
API Error - Authentication failed: 401. ..." (which contains
"Authentication failed" but not the parsed body message), and the
requested type's `GeneratedImages` slot ends up `null`. -/
theorem auth_failure_message_amended (cfg : AiConfig) (t : ImgType)
    (ctx : String) (resp : ApiResponse) (g : GeneratedImages)
    (hcfg : (lookupConfigED cfg t).isSome = true)
    (h401 : resp.status = 401) :
    generateImageWithNanoBanana cfg t ctx resp =
      GenResult.error authFailureMsg ∧
    containsSubstr authFailureMsg "Authentication failed" = true ∧
    (stepUpdate g t (generateImageWithNanoBanana cfg t ctx resp)).get t =
      none := by
  obtain ⟨c, hc⟩ := Option.isSome_iff_exists.mp hcfg
  have hnok : resp.ok = false := by
    simp [ApiResponse.ok, h401]
  have hgen : generateImageWithNanoBanana cfg t ctx resp =
      GenResult.error authFailureMsg := by
    unfold generateImageWithNanoBanana
    rw [hc]
    simp only [hnok, Bool.false_eq_true, if_false, h401, if_true]
    rfl
  refine ⟨hgen, by decide, ?_⟩
  rw [hgen]
  cases t <;> rfl

/-- Witness for C3 (amended) at a concrete 401 response with an
unparseable error body. -/
theorem auth_failure_message_amended_witness :
    generateImageWithNanoBanana sampleAiConfig ImgType.cad sampleCtx
      ⟨401, "Unauthorized", none, none⟩ =
      GenResult.error authFailureMsg ∧
    containsSubstr authFailureMsg "Authentication failed" = true ∧
    (stepUpdate emptyImages ImgType.cad
        (generateImageWithNanoBanana sampleAiConfig ImgType.cad
          sampleCtx ⟨401, "Unauthorized", none, none⟩)).get
      ImgType.cad = none :=
  auth_failure_message_amended sampleAiConfig ImgType.cad sampleCtx
    ⟨401, "Unauthorized", none, none⟩ emptyImages (by decide) rfl

/-- C4 counterexample: for a 2xx response whose `data[0]` has neither
`b64_json` nor `url`, the call does raise — but not with the claimed
"invalid response format" failure: the success log dereferences the
undefined `finalImageUrl` first, so the surfaced message is the
catch-wrapped TypeError, which does not contain
"Invalid response format". The slot ends `null` via the per-step
catch. -/
theorem missing_fields_throws_type_error :
    generateImageWithNanoBanana sampleAiConfig ImgType.cad sampleCtx
      respOkNoFields = GenResult.error typeErrorMsg ∧
    containsSubstr typeErrorMsg "Invalid response format" = false ∧
    (stepUpdate ⟨some "previous", none, none⟩ ImgType.cad
        (generateImageWithNanoBanana sampleAiConfig ImgType.cad sampleCtx
          respOkNoFields)).get ImgType.cad = none := by
  refine ⟨by decide, by decide, by decide⟩

/-- C4 (amended): on a 2xx response whose `data[0]` has neither
`b64_json` nor `url` the call raises — but with the catch-wrapped
TypeError from the success log's `finalImageUrl.length` read, not the
"invalid response format" failure, which is raised exactly when the
`data` array is missing or empty; in particular the call never
returns an undefined image string — every successful return carries a
present string. -/
theorem invalid_format_guard_amended (cfg : AiConfig) (t : ImgType)
    (ctx : String) (resp : ApiResponse)
    (hcfg : (lookupConfigED cfg t).isSome = true)
    (hok : resp.ok = true) :
    ((resp.data = none ∨ resp.data = some []) →
      generateImageWithNanoBanana cfg t ctx resp =
        GenResult.error ("API Error - Image generation failed: " ++
          "API Error - Invalid response format - no image data received")) ∧
    (∀ rest, resp.data = some (ImageData.mk none none :: rest) →
      generateImageWithNanoBanana cfg t ctx resp =
        GenResult.error typeErrorMsg) ∧
    containsSubstr typeErrorMsg "Invalid response format" = false ∧
    (∀ img, generateImageWithNanoBanana cfg t ctx resp = GenResult.ok img →
      img.isSome = true) := by
  obtain ⟨c, hc⟩ := Option.isSome_iff_exists.mp hcfg
  refine ⟨?_, ?_, by decide, ?_⟩
  · intro hdata
    unfold generateImageWithNanoBanana
    rw [hc]
    rcases hdata with h | h <;> simp [hok, h]
  · intro rest hdata
    unfold generateImageWithNanoBanana
    rw [hc]
    simp [hok, hdata, finalImageUrl, typeErrorMsg]
  · intro img himg
    cases hd : resp.data with
    | none =>
        have herr : generateImageWithNanoBanana cfg t ctx resp =
            GenResult.error ("API Error - Image generation failed: " ++
              "API Error - Invalid response format - no image data received")
            := by
          unfold generateImageWithNanoBanana
          rw [hc]
          simp [hok, hd]
        rw [herr] at himg
        exact GenResult.noConfusion himg
    | some l =>
        cases l with
        | nil =>
            have herr : generateImageWithNanoBanana cfg t ctx resp =
                GenResult.error ("API Error - Image generation failed: " ++
                  "API Error - Invalid response format - no image data received")
                := by
              unfold generateImageWithNanoBanana
              rw [hc]
              simp [hok, hd]
            rw [herr] at himg
            exact GenResult.noConfusion himg
        | cons d rest =>
            cases hf : finalImageUrl d with
            | some sI =>
                have hokk : generateImageWithNanoBanana cfg t ctx resp =
                    GenResult.ok (some sI) := by
                  unfold generateImageWithNanoBanana
                  rw [hc]
                  simp [hok, hd, hf]
                rw [hokk] at himg
                injection himg with h
                rw [← h]
                rfl
            | none =>
                have herr : generateImageWithNanoBanana cfg t ctx resp =
                    GenResult.error typeErrorMsg := by
                  unfold generateImageWithNanoBanana
                  rw [hc]
                  simp [hok, hd, hf, typeErrorMsg]
                rw [herr] at himg
                exact GenResult.noConfusion himg

/-- Witness for C4 (amended) at the concrete 2xx response whose single
data element has neither `b64_json` nor `url`. -/
theorem invalid_format_guard_amended_witness :
    ((respOkNoFields.data = none ∨ respOkNoFields.data = some []) →
      generateImageWithNanoBanana sampleAiConfig ImgType.cad sampleCtx
        respOkNoFields =
        GenResult.error ("API Error - Image generation failed: " ++
          "API Error - Invalid response format - no image data received")) ∧
    (∀ rest, respOkNoFields.data = some (ImageData.mk none none :: rest) →
      generateImageWithNanoBanana sampleAiConfig ImgType.cad sampleCtx
        respOkNoFields = GenResult.error typeErrorMsg) ∧
    containsSubstr typeErrorMsg "Invalid response format" = false ∧
    (∀ img, generateImageWithNanoBanana sampleAiConfig ImgType.cad sampleCtx
        respOkNoFields = GenResult.ok img → img.isSome = true) :=
  invalid_format_guard_amended sampleAiConfig ImgType.cad sampleCtx
    respOkNoFields (by decide) (by decide)

/-- A 2xx response with a well-formed base64 payload. -/
def respOkB64 : ApiResponse :=
  ⟨200, "OK", some [⟨some "QkFTRTY0", none⟩], none⟩

/-- C5 counterexample: with an empty injected `ai_config`,
`generateImageWithNanoBanana` fails with "configuration not found"
even though the hardcoded fallback table is fully populated — that
table lives only in the auto-run app's `generateImage` and is never
consulted by this orchestrator, so the claimed three-source resolution
chain does not exist in a single call. -/
theorem config_lookup_no_table_in_orchestrator :
    lookupConfigED emptyAiConfig ImgType.cad = none ∧
    generateImageWithNanoBanana emptyAiConfig ImgType.cad sampleCtx
      respOkB64 =
      GenResult.error "API Error - cad generator configuration not found" ∧
    (manualConfigs "isometric_generator").isSome = true ∧
    (manualConfigs "hologram_generator").isSome = true ∧
    (manualConfigs "line_drawing_generator").isSome = true := by
  refine ⟨rfl, by decide, rfl, rfl, rfl⟩

/-- C5 (amended): config resolution is split across two call sites.
`generateImageWithNanoBanana` resolves the primary key
`${type}_generator`, then the legacy alias (distinct only for the cad
type, aliasing to `isometric_generator`), and otherwise fails — it has
no hardcoded table. The auto-run app's `generateImage` resolves the
primary key and then the hardcoded `manualConfigs` table (no alias
step); there, a missing primary config with the populated table still
yields a valid, non-empty prompt. -/
theorem config_lookup_split_amended (cfg : AiConfig) :
    (∀ (t : ImgType) (c : GenerationConfig),
      cfg (t.name ++ "_generator") = some c → lookupConfigED cfg t = some c) ∧
    (cfg "cad_generator" = none →
      lookupConfigED cfg ImgType.cad = cfg "isometric_generator") ∧
    (∀ t : ImgType, t ≠ ImgType.cad → cfg (t.name ++ "_generator") = none →
      lookupConfigED cfg t = none) ∧
    (∀ t : AppImgType, cfg (t.name ++ "_generator") = none →
      lookupConfigApp cfg t = manualConfigs (t.name ++ "_generator") ∧
      ∃ p, (lookupConfigApp cfg t).bind renderPromptApp = some p ∧
        p ≠ "") := by
  refine ⟨?_, ?_, ?_, ?_⟩
  · intro t c h
    unfold lookupConfigED
    rw [h]
  · intro h
    unfold lookupConfigED
    have h2 : ImgType.cad.name ++ "_generator" = "cad_generator" := rfl
    rw [h2, h]
    rfl
  · intro t ht h
    unfold lookupConfigED
    rw [h]
    cases t with
    | cad => exact absurd rfl ht
    | hologram => exact h
    | lineArt => exact h
  · intro t h
    have happ : lookupConfigApp cfg t =
        manualConfigs (t.name ++ "_generator") := by
      unfold lookupConfigApp
      rw [h]
    refine ⟨happ, ?_⟩
    rw [happ]
    cases t with
    | isometric => exact ⟨_, rfl, by decide⟩
    | hologram => exact ⟨_, rfl, by decide⟩
    | line_drawing => exact ⟨_, rfl, by decide⟩

/-- Witness for C5 (amended) at an `ai_config` providing only the
`cad_generator` scene. -/
theorem config_lookup_split_amended_witness :
    (∀ (t : ImgType) (c : GenerationConfig),
      sampleAiConfig (t.name ++ "_generator") = some c →
      lookupConfigED sampleAiConfig t = some c) ∧
    (sampleAiConfig "cad_generator" = none →
      lookupConfigED sampleAiConfig ImgType.cad =
        sampleAiConfig "isometric_generator") ∧
    (∀ t : ImgType, t ≠ ImgType.cad →
      sampleAiConfig (t.name ++ "_generator") = none →
      lookupConfigED sampleAiConfig t = none) ∧
    (∀ t : AppImgType, sampleAiConfig (t.name ++ "_generator") = none →
      lookupConfigApp sampleAiConfig t =
        manualConfigs (t.name ++ "_generator") ∧
      ∃ p, (lookupConfigApp sampleAiConfig t).bind renderPromptApp =
        some p ∧ p ≠ "") :=
  config_lookup_split_amended sampleAiConfig

/-- Scanning a character that is not `'$'` copies it through. -/
theorem replaceVars_cons_not_dollar (vars : String → Option JsVal)
    (c : Char) (cs : List Char) (hc : c ≠ '$') :
    replaceVars vars (c :: cs) = c :: replaceVars vars cs := by
  rw [replaceVars]
  simp [hc]

/-- A `'$'`-free prefix is copied through verbatim. -/
theorem replaceVars_append_lit (vars : String → Option JsVal)
    (pre l : List Char) (hpre : ∀ c ∈ pre, c ≠ '$') :
    replaceVars vars (pre ++ l) = pre ++ replaceVars vars l := by
  induction pre with
  | nil => simp
  | cons c cs ih =>
      have hc : c ≠ '$' := hpre c (List.mem_cons_self _ _)
      rw [List.cons_append, replaceVars_cons_not_dollar vars c (cs ++ l) hc,
        ih (fun x hx => hpre x (List.mem_cons_of_mem _ hx))]
      rfl

/-- Splitting a word-character run followed by `'}'` with
takeWhile/dropWhile. -/
theorem takeWhile_word_append (k suf : List Char)
    (hw : ∀ c ∈ k, wordChar c = true) :
    (k ++ '}' :: suf).takeWhile wordChar = k ∧
    (k ++ '}' :: suf).dropWhile wordChar = '}' :: suf := by
  induction k with
  | nil => simp [List.takeWhile_cons, List.dropWhile_cons, wordChar]
  | cons c cs ih =>
      have hc : wordChar c = true := hw c (List.mem_cons_self _ _)
      have ih2 := ih (fun x hx => hw x (List.mem_cons_of_mem _ hx))
      simp [List.takeWhile_cons, List.dropWhile_cons, hc, ih2.1, ih2.2]

/-- The scan at a well-formed `${key}` placeholder substitutes it and
continues after the closing brace. -/
theorem replaceVars_placeholder (vars : String → Option JsVal)
    (k suf : List Char) (hk : k ≠ [])
    (hw : ∀ c ∈ k, wordChar c = true) :
    replaceVars vars ('$' :: '{' :: (k ++ '}' :: suf)) =
      substResult vars k ++ replaceVars vars suf := by
  obtain ⟨ht, hd⟩ := takeWhile_word_append k suf hw
  rw [replaceVars]
  simp only [List.head?_cons, Option.some.injEq, List.tail_cons, ht, hd]
  simp [hk]

/-- C10: the template function built by `processTemplateStrings`
substitutes a `${key}` placeholder only when `variables[key]` is
truthy — a placeholder whose variable is missing or bound to a falsy
value (empty string, 0, false, null) is left verbatim as the literal
text `${key}` in the output. -/
theorem template_falsy_placeholder_verbatim (vars : String → Option JsVal)
    (key pre suf : List Char) (hk : key ≠ [])
    (hw : ∀ c ∈ key, wordChar c = true)
    (hpre : ∀ c ∈ pre, c ≠ '$')
    (hfalsy : ∀ v, vars (String.mk key) = some v → v.truthy = false) :
    replaceVars vars (pre ++ '$' :: '{' :: (key ++ '}' :: suf)) =
      pre ++ '$' :: '{' :: (key ++ '}' :: replaceVars vars suf) ∧
    applyTemplate vars
        (String.mk (pre ++ '$' :: '{' :: (key ++ '}' :: suf))) =
      String.mk (pre ++ '$' :: '{' ::
        (key ++ '}' :: replaceVars vars suf)) := by
  have hsub : substResult vars key = '$' :: '{' :: (key ++ ['}']) := by
    unfold substResult
    cases h : vars (String.mk key) with
    | none => rfl
    | some v => simp [hfalsy v h]
  have hmain : replaceVars vars (pre ++ '$' :: '{' :: (key ++ '}' :: suf)) =
      pre ++ '$' :: '{' :: (key ++ '}' :: replaceVars vars suf) := by
    rw [replaceVars_append_lit vars pre _ hpre,
      replaceVars_placeholder vars key suf hk hw, hsub]
    simp
  exact ⟨hmain, by rw [applyTemplate]; simp only [String.data]; rw [hmain]⟩

/-- A variable bag binding `name` to the falsy empty string. -/
def w10vars : String → Option JsVal :=
  fun s => if s = "name" then some (JsVal.vstr "") else none

/-- Witness for C10: in `x${name}y` with `name` bound to `""`, the
placeholder stays verbatim. -/
theorem template_falsy_placeholder_verbatim_witness :
    replaceVars w10vars
        (['x'] ++ '$' :: '{' :: (['n', 'a', 'm', 'e'] ++ '}' :: ['y'])) =
      ['x'] ++ '$' :: '{' ::
        (['n', 'a', 'm', 'e'] ++ '}' :: replaceVars w10vars ['y']) ∧
    applyTemplate w10vars (String.mk
        (['x'] ++ '$' :: '{' :: (['n', 'a', 'm', 'e'] ++ '}' :: ['y']))) =
      String.mk (['x'] ++ '$' :: '{' ::
        (['n', 'a', 'm', 'e'] ++ '}' :: replaceVars w10vars ['y'])) :=
  template_falsy_placeholder_verbatim w10vars ['n', 'a', 'm', 'e'] ['x'] ['y']
    (by decide) (by decide) (by decide)
    (by
      intro v hv
      rw [show w10vars (String.mk ['n', 'a', 'm', 'e']) =
        some (JsVal.vstr "") from rfl] at hv
      cases hv
      rfl)
